import Mathlib

/-!
Shallow embedding of the asynchronous job-processing subsystem of the
QA-Chatbot backend (task queue, retry/backoff handler, worker supervisor,
completion barrier, ingestion pipeline), together with theorems settling
the specification claims about it.

Each definition is translated from the Python source file named in its
doc comment.
-/

/-! Configuration constants, from `backend/app/config.py`. -/

/-- `REDIS_MAX_RETRY = 3` (config.py line 46). -/
def REDIS_MAX_RETRY : Nat := 3

/-- `REDIS_RETRY_INTERVALS = [10, 20, 30]` (config.py line 47). -/
def REDIS_RETRY_INTERVALS : List Nat := [10, 20, 30]

/-- `REDIS_TIMEOUT = 30` seconds (config.py line 48). -/
def REDIS_TIMEOUT : Int := 30

/-- `MAX_FILE_SIZE_BYTES = 100 * 1024 * 1024` (config.py lines 161-162). -/
def MAX_FILE_SIZE_BYTES : Nat := 100 * 1024 * 1024

/-- `CHUNK_SIZE = 1000` (config.py line 159). -/
def CHUNK_SIZE : Nat := 1000

/-- `CHUNK_OVERLAP = 200` (config.py line 160). -/
def CHUNK_OVERLAP : Nat := 200

/-! Python exception classes appearing in the repository.

Two parallel hierarchies exist:
- `backend/app/mq/exceptions.py` defines a class named `BaseException`
  (shadowing the builtin) deriving from the builtin `Exception`, with
  subclasses `DocumentProcessingError`, `VectorizationError`,
  `DatabaseError` (the `mq*` constructors below);
- `backend/app/core/exceptions.py` defines `AppException(Exception)` with
  subclasses `DocumentProcessingError`, `VectorizationError`,
  `DatabaseError`, `ModelError`, `ToolExecutionError` (the `core*`
  constructors below) - same class names, different classes.
-/

/-- The exception classes of the repository (plus the builtins involved). -/
inductive ExcClass
  | pyException                 -- builtin Exception
  | mqBaseException             -- app.mq.exceptions.BaseException(Exception)
  | mqDocumentProcessingError   -- app.mq.exceptions.DocumentProcessingError(BaseException)
  | mqVectorizationError        -- app.mq.exceptions.VectorizationError(BaseException)
  | mqDatabaseError             -- app.mq.exceptions.DatabaseError(BaseException)
  | appException                -- app.core.exceptions.AppException(Exception)
  | coreDocumentProcessingError -- app.core.exceptions.DocumentProcessingError(AppException)
  | coreVectorizationError      -- app.core.exceptions.VectorizationError(AppException)
  | coreDatabaseError           -- app.core.exceptions.DatabaseError(AppException)
  | coreModelError              -- app.core.exceptions.ModelError(AppException)
  | coreToolExecutionError      -- app.core.exceptions.ToolExecutionError(AppException)
  | pyValueError                -- builtin ValueError(Exception)
  deriving DecidableEq, Repr

/-- The method-resolution chain of each class (itself, then its bases up to
`Exception`), read off the `class` declarations listed above. -/
def ancestors : ExcClass → List ExcClass
  | .pyException => [.pyException]
  | .mqBaseException => [.mqBaseException, .pyException]
  | .mqDocumentProcessingError => [.mqDocumentProcessingError, .mqBaseException, .pyException]
  | .mqVectorizationError => [.mqVectorizationError, .mqBaseException, .pyException]
  | .mqDatabaseError => [.mqDatabaseError, .mqBaseException, .pyException]
  | .appException => [.appException, .pyException]
  | .coreDocumentProcessingError => [.coreDocumentProcessingError, .appException, .pyException]
  | .coreVectorizationError => [.coreVectorizationError, .appException, .pyException]
  | .coreDatabaseError => [.coreDatabaseError, .appException, .pyException]
  | .coreModelError => [.coreModelError, .appException, .pyException]
  | .coreToolExecutionError => [.coreToolExecutionError, .appException, .pyException]
  | .pyValueError => [.pyValueError, .pyException]

/-- Python `issubclass(c, t)`: `t` occurs in the ancestor chain of `c`. -/
def issubclass (c t : ExcClass) : Bool :=
  (ancestors c).contains t

/-! Python values stored in a job's `meta` dict. -/

/-- A Python value as it appears in job metadata. -/
inductive PyVal
  | int (n : Int)
  | str (s : String)
  | bool (b : Bool)
  deriving DecidableEq, Repr

/-- The items of a Python `dict` used as job metadata (key-value pairs,
in insertion order). -/
abbrev MetaDict := List (String × PyVal)

/-- Item access on the meta dict: `meta[k]` / `meta.get(k)`. -/
def dict_get (items : MetaDict) (name : String) : Option PyVal :=
  items.lookup name

/-- Python `getattr(meta, name, default)` where `meta` is a plain `dict`
(RQ stores `Job.meta` as a `dict`). Attribute lookup on a `dict` instance
consults the object's attribute namespace, not its mapping entries: the
items of the dict are reachable only through `meta[k]` / `meta.get(k)`
(modelled by `dict_get`), and `dict` instances carry no data attributes.
Hence for the key names used in `app/mq/exceptions.py` (`"retry_count"`,
`"queue_name"`, `"allow_retry"`) `getattr` always yields the supplied
default, whatever items the dict holds. -/
def dict_getattr {α : Type} (_items : MetaDict) (_name : String) (default : α) : α :=
  default

/-! The Job record and the retry handler, from `backend/app/mq/exceptions.py`. -/

/-- The fields of an RQ `Job` that `generic_exception_handler` reads:
`job.id`, `job.func`, `job.args`, `job.kwargs`, `job.timeout`, `job.meta`. -/
structure Job where
  id : String
  func : String
  args : List PyVal
  kwargs : List (String × PyVal)
  timeout : Int
  meta : MetaDict
  deriving DecidableEq, Repr

/-- The job created by `queue.enqueue_in(timedelta(seconds=delay), job.func,
args=..., kwargs=..., job_timeout=..., meta=...)` in
`generic_exception_handler` (exceptions.py lines 85-96), on the queue
named `queue_name`. -/
structure EnqueuedJob where
  delaySeconds : Nat
  func : String
  args : List PyVal
  kwargs : List (String × PyVal)
  job_timeout : Int
  meta : MetaDict
  queueName : String
  deriving DecidableEq, Repr

/-- The three possible outcomes of `generic_exception_handler`:
the early `return` (value `None`) when the exception type is not a
subclass of the module's `BaseException`; `return True` after
re-enqueueing a new job; `return False` (dead-letter) otherwise. -/
inductive HandlerResult
  | noneEarly
  | retried (newJob : EnqueuedJob)
  | deadLettered
  deriving DecidableEq, Repr

/-- `generic_exception_handler(job, exc_type, exc_value, traceback)` from
`backend/app/mq/exceptions.py` lines 50-104, translated statement by
statement. `retry_count`, `queue_name` and `allow_retry` are read with
`getattr` on the meta dict (see `dict_getattr`); `exc_value` and
`traceback` are unused by the source body and omitted. -/
def generic_exception_handler (job : Job) (exc_type : ExcClass) : HandlerResult :=
  let retry_count : Nat := dict_getattr job.meta "retry_count" 0
  let max_retries := REDIS_MAX_RETRY
  if ¬ issubclass exc_type .mqBaseException then
    .noneEarly
  else if retry_count < max_retries then
    let delay : Nat :=
      if retry_count < REDIS_RETRY_INTERVALS.length then
        REDIS_RETRY_INTERVALS.getD retry_count 0
      else
        let base_interval := REDIS_RETRY_INTERVALS.getLastD 10
        min (base_interval * 2 ^ retry_count) 300
    let queue_name : String := dict_getattr job.meta "queue_name" "qa-chatbot"
    let allow_retry : Bool := dict_getattr job.meta "allow_retry" true
    .retried
      { delaySeconds := delay
        func := job.func
        args := job.args
        kwargs := job.kwargs
        job_timeout := job.timeout
        meta := [("retry_count", .int (retry_count + 1)),
                 ("queue_name", .str queue_name),
                 ("allow_retry", .bool allow_retry)]
        queueName := queue_name }
  else
    .deadLettered

/-- The re-enqueue decision of a handler outcome, together with the delay
of the re-enqueue when there is one (`none` means the job was not
re-enqueued, whether by early return or by dead-lettering). -/
def retryDecision : HandlerResult → Option Nat
  | .retried j => some j.delaySeconds
  | _ => none

/-- The exception classes the document pipeline actually raises in its
queued jobs: `DocumentService.process_chunk` raises
`core.DatabaseError` / `core.VectorizationError` and
`DocumentService.check_document_completion` raises
`core.DocumentProcessingError` - all imported from
`app.core.exceptions` (document_service.py lines 28-32, 152-155, 175-176). -/
def pipelineRaisedClasses : List ExcClass :=
  [.coreDocumentProcessingError, .coreVectorizationError, .coreDatabaseError]

/-! The queue operations, from `backend/app/mq/queue.py`. -/

/-- The `task_timeout` argument of `enqueue_task` as a Python value:
absent / `None`, an `int` (Python `bool`s are `int`s: `True` is `1`,
`False` is `0`), or any non-`int` object of the given truthiness. -/
inductive TimeoutArg
  | none
  | int (n : Int)
  | other (truthy : Bool)
  deriving DecidableEq, Repr

/-- Python truthiness of a `task_timeout` argument: `None` is falsy, an
`int` is truthy iff nonzero, other objects carry their own truthiness. -/
def TimeoutArg.truthy : TimeoutArg → Bool
  | .none => false
  | .int n => n != 0
  | .other t => t

/-- `isinstance(task_timeout, int)`. -/
def TimeoutArg.isInt : TimeoutArg → Bool
  | .int _ => true
  | _ => false

/-- The integer value of a `task_timeout` argument; only consulted after
the `isinstance` guard, so the non-`int` branches are never reached. -/
def TimeoutArg.intValue : TimeoutArg → Int
  | .int n => n
  | _ => 0

/-- The job record that `queue.enqueue(func, args=(args or []),
job_timeout=task_timeout, meta=meta)` persists (queue.py lines 41-50). -/
structure QueuedJob where
  func : String
  args : List PyVal
  timeout : Int
  meta : MetaDict
  deriving DecidableEq, Repr

/-- `enqueue_task(func, args, queue_name, task_timeout, allow_retry)` from
`backend/app/mq/queue.py` lines 24-53, translated statement by statement:
`if not task_timeout or not isinstance(task_timeout, int)` substitutes
`REDIS_TIMEOUT`; then `task_timeout = min(task_timeout, 1800)`; then the
job is enqueued with `meta = {retry_count: 0, queue_name, allow_retry}`.
The function returns the persisted job record (the source returns its id). -/
def enqueue_task (func : String) (args : Option (List PyVal)) (queue_name : String)
    (task_timeout : TimeoutArg) (allow_retry : Bool) : QueuedJob :=
  let t : Int :=
    if ¬ task_timeout.truthy ∨ ¬ task_timeout.isInt then REDIS_TIMEOUT
    else task_timeout.intValue
  let capped : Int := min t 1800
  { func := func
    args := args.getD []
    timeout := capped
    meta := [("retry_count", .int 0),
             ("queue_name", .str queue_name),
             ("allow_retry", .bool allow_retry)] }

/-- The state of an RQ job record in the backing store, as read by
`get_job_status`: `is_finished` with its `result`, `is_failed` with its
`exc_info`, or any other state (queued / started / deferred / scheduled). -/
inductive RqJobState
  | finished (result : PyVal)
  | failed (exc_info : String)
  | other
  deriving DecidableEq, Repr

/-- The dict returned by `get_job_status` (queue.py lines 62-77). -/
structure JobStatusResponse where
  job_id : String
  status : String
  result : Option PyVal
  error : Option String
  deriving DecidableEq, Repr

/-- `str(e)` for the `NoSuchJobError` that `rq.job.Job.fetch` raises when
the id is unknown to the backing store; only its presence matters below. -/
def no_such_job_message (job_id : String) : String :=
  "No such job: " ++ job_id

/-- `Job.fetch(job_id, connection=...)`: returns the stored job, or raises
`NoSuchJobError` when the id is unknown (modelled as `Except.error`). -/
def rq_job_fetch (store : List (String × RqJobState)) (job_id : String) :
    Except String RqJobState :=
  match store.lookup job_id with
  | some s => .ok s
  | none => .error (no_such_job_message job_id)

/-- `get_job_status(job_id)` from `backend/app/mq/queue.py` lines 56-77:
fetches the job inside a `try`; a finished job yields status
`"completed"` with its result, a failed job yields status `"failed"` with
its error string, any other state yields `"running"`; the blanket
`except Exception` turns every raised exception - including the
`NoSuchJobError` of an unknown id - into a normally returned dict with
status `"failed"` and `error = str(e)`. -/
def get_job_status (store : List (String × RqJobState)) (job_id : String) :
    JobStatusResponse :=
  match rq_job_fetch store job_id with
  | .ok (.finished r) =>
      { job_id := job_id, status := "completed", result := some r, error := Option.none }
  | .ok (.failed e) =>
      { job_id := job_id, status := "failed", result := Option.none, error := some e }
  | .ok .other =>
      { job_id := job_id, status := "running", result := Option.none, error := Option.none }
  | .error e =>
      { job_id := job_id, status := "failed", result := Option.none, error := some e }

/-! The ingestion pipeline, from `backend/app/services/document_service.py`.
Python strings are modelled as their character lists, so `text[start:end]`
with `0 ≤ start ≤ end` is `(text.drop start).take (end - start)`. -/

/-- The `while start < len(text)` loop of `DocumentService.chunk_text`
(document_service.py lines 66-79), with the mutable `start` and an explicit
fuel bound standing for the number of iterations still allowed: each
iteration appends `text[start : start + chunk_size]` and sets
`start = (start + chunk_size) - overlap`; `none` means the loop has not
finished within `fuel` iterations. When `overlap < chunk_size` the new
`start` exceeds the old one, so the subtraction never goes below zero and
the `Nat` model agrees with Python integers. -/
def chunkLoop (text : List Char) (chunk_size overlap : Nat) :
    Nat → Nat → Option (List (List Char))
  | start, 0 => if start < text.length then Option.none else some []
  | start, fuel + 1 =>
    if start < text.length then
      match chunkLoop text chunk_size overlap (start + chunk_size - overlap) fuel with
      | some rest => some (((text.drop start).take chunk_size) :: rest)
      | Option.none => Option.none
    else some []

/-- `DocumentService.chunk_text(text, chunk_size, overlap)`: the loop run
from `start = 0`. `text.length` iterations always suffice when
`overlap < chunk_size`, since each iteration advances `start` by at least
one; the `Option.none` case is the loop spinning without forward progress
(`overlap ≥ chunk_size`). -/
def chunk_text (text : List Char) (chunk_size overlap : Nat) :
    Option (List (List Char)) :=
  chunkLoop text chunk_size overlap 0 text.length

/-- The condition of `if processed_count and int(processed_count) >= total_chunks`
in `DocumentService.check_document_completion` (document_service.py line 166):
`redis_client.get` returns `None` (falsy) when the counter key is absent,
and otherwise the nonempty - hence truthy - byte string of the counter's
integer value, so the condition holds iff the key is present with value
`≥ total_chunks`. -/
def watcherExitCond (total_chunks : Nat) (processed_count : Option Nat) : Bool :=
  match processed_count with
  | Option.none => false
  | some v => total_chunks ≤ v

/-- The polling loop of `check_document_completion` driven by the stream
`obs` of values that `redis_client.get(f"chunk_count:{document_id}")`
returns at successive iterations; returns the index of the iteration at
which the loop breaks, or `none` when it has not broken within `fuel`
iterations (each non-breaking iteration sleeps 0.5 s and polls again). -/
def watcherBreakIndex (total_chunks : Nat) (obs : Nat → Option Nat) :
    Nat → Nat → Option Nat
  | 0, _ => Option.none
  | fuel + 1, k =>
    if watcherExitCond total_chunks (obs k) then some k
    else watcherBreakIndex total_chunks obs fuel (k + 1)

/-- What a run of the watcher does to the counter key. -/
inductive WatcherEffect
  | deleteCounter (afterIterations : Nat)
  | stillPolling
  deriving DecidableEq, Repr

/-- `DocumentService.check_document_completion(document_id, total_chunks)`
(document_service.py lines 157-176), as the effect it has on the counter
key within `fuel` polling iterations: when the loop breaks at iteration
`k` the function runs `redis_client.delete(f"chunk_count:{document_id}")`
exactly once and returns the document id; until the loop breaks it only
reads the key and sleeps. -/
def check_document_completion (total_chunks : Nat) (obs : Nat → Option Nat)
    (fuel : Nat) : WatcherEffect :=
  match watcherBreakIndex total_chunks obs fuel 0 with
  | some k => .deleteCounter k
  | Option.none => .stillPolling

/-- The redis operations a job may perform on a document's counter key. -/
inductive RedisOp
  | incr (key : String)
  | expire (key : String) (ttl : Nat)
  | deleteKey (key : String)
  deriving DecidableEq, Repr

/-- The redis operations of a successful `DocumentService.process_chunk`
run (document_service.py lines 146-148): one atomic `INCR` of the
document's counter followed by re-setting its TTL to 3600 s - no delete. -/
def process_chunk_redis_ops (document_id : String) : List RedisOp :=
  [.incr ("chunk_count:" ++ document_id),
   .expire ("chunk_count:" ++ document_id) 3600]

/-- Whether a redis operation deletes a key. -/
def RedisOp.isDelete : RedisOp → Bool
  | .deleteKey _ => true
  | _ => false

/-! The worker supervisor, from `backend/launch_workers.py`.

`WorkerManager.run` keys `worker_restart_counts` and
`worker_restart_delays` by `id(worker)`, the CPython object identity of
the `multiprocessing.Process` object. A restarted worker is a freshly
constructed `Process`, so it carries a fresh identity; the model draws
identities from a monotone counter (`nextId`), which is the guaranteed
behaviour while the objects are live - distinct live objects never share
an `id`. -/

/-- A `multiprocessing.Process` handle: its object identity and whether
`is_alive()` holds. -/
structure ProcHandle where
  pid : Nat
  alive : Bool
  deriving DecidableEq, Repr

/-- `max_restart_attempts = 5` (launch_workers.py line 26). -/
def max_restart_attempts : Nat := 5

/-- `base_restart_delay = 5` seconds (launch_workers.py line 27). -/
def base_restart_delay : Nat := 5

/-- The mutable state of `WorkerManager.run`: the `self.workers` list, the
two id-keyed dicts, the fresh-identity counter, the current value of
`time.time()` (in whole seconds, since the loop sleeps 1 s per pass), and
a count of retirement log events. -/
structure ManagerState where
  workers : List ProcHandle
  restart_counts : List (Nat × Nat)
  restart_delays : List (Nat × Nat)
  nextId : Nat
  now : Nat
  retired : Nat
  deriving DecidableEq, Repr

/-- Lookup with default on an id-keyed dict: `d.get(worker_id, 0)`. -/
def idGetD (d : List (Nat × Nat)) (k : Nat) (default : Nat) : Nat :=
  (d.lookup k).getD default

/-- `d[worker_id] = v`: replace the binding if present, else append it. -/
def idSet (d : List (Nat × Nat)) (k v : Nat) : List (Nat × Nat) :=
  if (d.lookup k).isSome then
    d.map (fun e => if e.1 = k then (k, v) else e)
  else d ++ [(k, v)]

/-- `del d[worker_id]`. -/
def idDel (d : List (Nat × Nat)) (k : Nat) : List (Nat × Nat) :=
  d.filter (fun e => e.1 ≠ k)

/-- The body of `for worker in self.workers[:]` in `WorkerManager.run`
(launch_workers.py lines 76-102) for one worker of the snapshot: a dead
worker is either retired (removed, when its looked-up restart count has
reached `max_restart_attempts`) or scheduled for restart after
`base_restart_delay * 2 ** restart_count` seconds with its count
incremented, and removed from the live list either way. -/
def monitorWorker (s : ManagerState) (w : ProcHandle) : ManagerState :=
  if w.alive then s
  else
    let restart_count := idGetD s.restart_counts w.pid 0
    if max_restart_attempts ≤ restart_count then
      { s with workers := s.workers.eraseP (fun x => x.pid == w.pid)
               retired := s.retired + 1 }
    else
      let delay := base_restart_delay * 2 ^ restart_count
      { s with restart_delays := idSet s.restart_delays w.pid (s.now + delay)
               restart_counts := idSet s.restart_counts w.pid (restart_count + 1)
               workers := s.workers.eraseP (fun x => x.pid == w.pid) }

/-- The `for worker in self.workers[:]` pass: the body folded over the
snapshot of the worker list taken at the top of the pass. -/
def monitorPhase (s : ManagerState) : ManagerState :=
  s.workers.foldl monitorWorker s

/-- The body of `for worker_id, restart_time in list(...items())`
(launch_workers.py lines 104-115) for one scheduled entry: once
`time.time() >= restart_time`, a new `Process` is constructed and started
(fresh identity), appended to the worker list, and the schedule entry is
deleted. -/
def restartWorker (s : ManagerState) (entry : Nat × Nat) : ManagerState :=
  if entry.2 ≤ s.now then
    { s with workers := s.workers ++ [{ pid := s.nextId, alive := true }]
             nextId := s.nextId + 1
             restart_delays := idDel s.restart_delays entry.1 }
  else s

/-- The restart pass: the body folded over the snapshot of the schedule. -/
def restartPhase (s : ManagerState) : ManagerState :=
  s.restart_delays.foldl restartWorker s

/-- One pass of the `while self.running` loop of `WorkerManager.run`:
monitor pass, restart pass, then `time.sleep(1)`. -/
def managerLoopIter (s : ManagerState) : ManagerState :=
  let s1 := monitorPhase s
  let s2 := restartPhase s1
  { s2 with now := s2.now + 1 }

/-- The environment event of every live worker process crashing. -/
def crashAll (s : ManagerState) : ManagerState :=
  { s with workers := s.workers.map (fun w => { w with alive := false }) }

/-- The manager state right after `start_workers` spawned a single worker. -/
def managerInit : ManagerState :=
  { workers := [{ pid := 0, alive := true }]
    restart_counts := []
    restart_delays := []
    nextId := 1
    now := 0
    retired := 0 }

/-- One crash-and-recover cycle of the single worker slot: the worker
crashes, then the supervisor loop runs for 6 passes - enough for the
5-second restart delay to elapse and the replacement process to start. -/
def crashCycle (s : ManagerState) : ManagerState :=
  managerLoopIter^[6] (crashAll s)

/-! `DocumentService.process_file`, from
`backend/app/services/document_service.py` lines 344-405. -/

/-- The exceptions `process_file` can raise or propagate. -/
inductive PyError
  | valueError (msg : String)
  | documentProcessingError (document_id user_id reason : String)
  | databaseError (operation table reason : String)
  | otherError (msg : String)
  deriving DecidableEq, Repr

/-- A row of the `documents` table as `process_file` inserts it
(document_service.py lines 371-382). -/
structure DocumentRow where
  user_id : String
  title : String
  size : Nat
  content : String
  deriving DecidableEq, Repr

/-- One call to `enqueue_task` made by `process_file` (function reference,
positional args, queue name). -/
structure EnqueueCall where
  func : String
  args : List PyVal
  queue_name : String
  deriving DecidableEq, Repr

/-- The shared mutable state `process_file` acts on: the persisted
document rows and the enqueued jobs. -/
structure IngestState where
  documents : List DocumentRow
  queue : List EnqueueCall
  deriving DecidableEq, Repr

/-- The fields of the upload that `process_file` reads from its `data`
dict: `filename`, `size`, `content` (the raw bytes, opaque here), and
`content_type`. -/
structure UploadData where
  filename : String
  size : Nat
  content : String
  content_type : String
  deriving DecidableEq, Repr

/-- `DocumentService.process_file(data, user_id, title)`, translated
statement by statement. The two collaborator calls whose outcomes the
function branches on are passed as arguments: `extract` is the outcome of
`self.extract_text(content)` and `insert` the outcome of the
`documents`-table insert (the new `document_id`, or the raised error).
Returns the state after the call together with the returned document id
or the raised exception. The two validation checks (`content_type` not
`"application/pdf"`, `file_size` over `MAX_FILE_SIZE_BYTES`) precede the
`try` block and every side effect; inside the `try`, a raised
`DatabaseError` is re-raised as is and any other exception is wrapped in
`DocumentProcessingError(document_id or "unknown", user_id, str(e))`. -/
def process_file (extract : Except PyError String) (insert : Except PyError String)
    (st : IngestState) (data : UploadData) (user_id : String)
    (title : Option String) : IngestState × Except PyError String :=
  if data.content_type ≠ "application/pdf" then
    (st, .error (.valueError "Only PDF files are supported"))
  else if MAX_FILE_SIZE_BYTES < data.size then
    (st, .error (.valueError
      ("File size exceeds maximum limit of "
        ++ toString (MAX_FILE_SIZE_BYTES / (1024 * 1024)) ++ " MB")))
  else
    match extract with
    | .error e =>
        -- `extract_text` raises `DocumentProcessingError`, not `DatabaseError`,
        -- so the generic handler wraps it again with the known document id slot.
        (st, .error (wrapExc e user_id))
    | .ok text =>
      let chunks := (chunk_text text.data CHUNK_SIZE CHUNK_OVERLAP).getD []
      let doc_title :=
        match title with
        | some t => if t ≠ "" then t else data.filename.replace ".pdf" ""
        | Option.none => data.filename.replace ".pdf" ""
      match insert with
      | .error e => (st, .error (wrapExc e user_id))
      | .ok document_id =>
        let st1 : IngestState :=
          { st with documents := st.documents ++
              [{ user_id := user_id, title := doc_title, size := data.size,
                 content := text }] }
        let chunkCalls : List EnqueueCall :=
          (List.range chunks.length).map (fun i =>
            { func := "process_chunk"
              args := [.str (String.mk (chunks.getD i [])), .str document_id, .int i]
              queue_name := "qa-chatbot" })
        let watcherCall : EnqueueCall :=
          { func := "check_document_completion"
            args := [.str document_id, .int chunks.length]
            queue_name := "qa-chatbot" }
        ({ st1 with queue := st1.queue ++ chunkCalls ++ [watcherCall] },
         .ok document_id)
where
  /-- The `except DatabaseError: raise` / `except Exception as e: raise
  DocumentProcessingError(document_id or "unknown", user_id, str(e))`
  clauses (document_service.py lines 402-405); the wrapped errors arise
  before `document_id` is assigned, so the id slot is `"unknown"`. -/
  wrapExc (e : PyError) (user_id : String) : PyError :=
    match e with
    | .databaseError op tbl r => .databaseError op tbl r
    | .valueError m => .documentProcessingError "unknown" user_id m
    | .documentProcessingError _ _ r => .documentProcessingError "unknown" user_id r
    | .otherError m => .documentProcessingError "unknown" user_id m

/-! Theorems. -/

/-- Whatever the failed job's meta holds, `generic_exception_handler`
reads `retry_count = 0`, `queue_name = "qa-chatbot"` and
`allow_retry = True` (the `getattr` defaults), so it either returns early
(non-retryable exception class) or re-enqueues with delay
`REDIS_RETRY_INTERVALS[0] = 10` and a fresh meta; the dead-letter branch
is unreachable. -/
lemma handler_eq (job : Job) (exc : ExcClass) :
    generic_exception_handler job exc =
      if issubclass exc .mqBaseException then
        .retried
          { delaySeconds := 10
            func := job.func
            args := job.args
            kwargs := job.kwargs
            job_timeout := job.timeout
            meta := [("retry_count", .int 1),
                     ("queue_name", .str "qa-chatbot"),
                     ("allow_retry", .bool true)]
            queueName := "qa-chatbot" }
      else .noneEarly := by
  rcases Bool.eq_false_or_eq_true (issubclass exc .mqBaseException) with h | h <;>
    simp [generic_exception_handler, h, dict_getattr, REDIS_MAX_RETRY,
      REDIS_RETRY_INTERVALS]

/-- A failed job whose meta dict carries `retry_count = 3` (at the
`max_retries` budget) together with a retryable exception. -/
def jobRetry3 : Job :=
  { id := "job-3"
    func := "process_chunk"
    args := [.str "chunk-0", .str "doc-1", .int 0]
    kwargs := []
    timeout := 30
    meta := [("retry_count", .int 3),
             ("queue_name", .str "low-priority"),
             ("allow_retry", .bool true)] }

/-- C1: the claim's retry policy does not hold of the code. For a failed
job whose meta carries `retry_count = 3 = max_retries` and a retryable
exception, the handler does not dead-letter it: `getattr` on the meta
dict never sees the stored item, so the handler reads `retry_count = 0`
and re-enqueues with `delay = 10` seconds, `meta.retry_count = 1`, and
queue name `"qa-chatbot"` instead of the job's stored
`"low-priority"`. -/
theorem C1_retry_count_never_read :
    dict_get jobRetry3.meta "retry_count" = some (.int 3)
    ∧ REDIS_MAX_RETRY = 3
    ∧ generic_exception_handler jobRetry3 .mqDocumentProcessingError =
        .retried
          { delaySeconds := 10
            func := "process_chunk"
            args := [.str "chunk-0", .str "doc-1", .int 0]
            kwargs := []
            job_timeout := 30
            meta := [("retry_count", .int 1),
                     ("queue_name", .str "qa-chatbot"),
                     ("allow_retry", .bool true)]
            queueName := "qa-chatbot" } := by
  refine ⟨by decide, rfl, ?_⟩
  rw [handler_eq]
  decide

/-- C2: no exception class the document pipeline actually raises is ever
retried. The pipeline's jobs raise `DocumentProcessingError`,
`VectorizationError` and `DatabaseError` imported from
`app.core.exceptions` (subclasses of `AppException`), while the handler's
allow-list test is `issubclass(exc_type, BaseException)` against the
distinct hierarchy of `app.mq.exceptions`; the handler therefore hits its
early `return` for every one of them, whatever the job. -/
theorem C2_pipeline_exceptions_never_retried :
    ∀ (job : Job) (c : ExcClass), c ∈ pipelineRaisedClasses →
      generic_exception_handler job c = .noneEarly := by
  intro job c hc
  fin_cases hc <;> rw [handler_eq, if_neg (by decide)]

/-- Witness for C2 at a concrete job and the concrete exception class
raised by `process_chunk`'s embedding failure path. -/
theorem C2_witness :
    generic_exception_handler jobRetry3 .coreVectorizationError = .noneEarly :=
  C2_pipeline_exceptions_never_retried jobRetry3 .coreVectorizationError (by decide)

/-- A failed job identical to `jobRetry3` except that its meta carries
`allow_retry = False` and `retry_count = 0`. -/
def jobAllowFalse : Job :=
  { id := "job-0"
    func := "process_chunk"
    args := [.str "chunk-0", .str "doc-1", .int 0]
    kwargs := []
    timeout := 30
    meta := [("retry_count", .int 0),
             ("queue_name", .str "qa-chatbot"),
             ("allow_retry", .bool false)] }

/-- The job `generic_exception_handler` re-enqueues for `jobAllowFalse`. -/
def retriedFromAllowFalse : EnqueuedJob :=
  { delaySeconds := 10
    func := "process_chunk"
    args := [.str "chunk-0", .str "doc-1", .int 0]
    kwargs := []
    job_timeout := 30
    meta := [("retry_count", .int 1),
             ("queue_name", .str "qa-chatbot"),
             ("allow_retry", .bool true)]
    queueName := "qa-chatbot" }

/-- C9, counterexample to the claim as stated: the `allow_retry` flag is
not copied into the new job's meta. A job whose meta carries
`allow_retry = False` is re-enqueued with `allow_retry = True`, because
`getattr` on the meta dict yields the default `True` rather than the
stored item. -/
theorem C9_counterexample_flag_not_copied :
    generic_exception_handler jobAllowFalse .mqVectorizationError =
      .retried retriedFromAllowFalse
    ∧ dict_get jobAllowFalse.meta "allow_retry" = some (.bool false)
    ∧ dict_get retriedFromAllowFalse.meta "allow_retry" = some (.bool true) := by
  refine ⟨?_, by decide, by decide⟩
  rw [handler_eq]
  decide

/-- C9 as amended: the retry decision and the computed delay of
`generic_exception_handler` are independent of the whole meta dict -
in particular of `allow_retry`: two failed jobs identical except for
their meta are re-enqueued both or neither, with the same delay; and
whenever a job is re-enqueued, the new job's meta carries
`allow_retry = True` regardless of the original flag (the flag is reset
to the `getattr` default, not copied). -/
theorem C9_decision_independent_of_allow_retry :
    ∀ (job : Job) (exc : ExcClass) (mA mB : MetaDict),
      retryDecision (generic_exception_handler { job with meta := mA } exc) =
        retryDecision (generic_exception_handler { job with meta := mB } exc)
      ∧ ∀ nj, generic_exception_handler { job with meta := mA } exc = .retried nj →
          dict_get nj.meta "allow_retry" = some (.bool true) := by
  intro job exc mA mB
  refine ⟨rfl, ?_⟩
  intro nj h
  rw [handler_eq] at h
  split at h
  · cases h
    rfl
  · cases h

/-- Witness for C9 at a concrete job, exception class and pair of metas
differing exactly in `allow_retry`. -/
theorem C9_witness :
    retryDecision (generic_exception_handler
        { jobAllowFalse with meta := jobRetry3.meta } .mqDatabaseError) =
      retryDecision (generic_exception_handler
        { jobAllowFalse with meta := jobAllowFalse.meta } .mqDatabaseError)
    ∧ dict_get retriedFromAllowFalse.meta "allow_retry" = some (.bool true) :=
  ⟨(C9_decision_independent_of_allow_retry jobAllowFalse .mqDatabaseError
      jobRetry3.meta jobAllowFalse.meta).1,
   (C9_decision_independent_of_allow_retry jobAllowFalse .mqDatabaseError
      jobAllowFalse.meta jobRetry3.meta).2 retriedFromAllowFalse
      (by rw [handler_eq]; decide)⟩

/-- C3, counterexample to the claim as stated: for a job id unknown to the
backing store, `get_job_status` does not fail with a `NotFoundError` - it
returns a normal response whose `status` is `"failed"`, the very same
status value it returns for a job that ran and failed, so the two
outcomes are not distinct. -/
theorem C3_counterexample_unknown_id_reports_failed :
    (get_job_status [] "ghost-job").status = "failed"
    ∧ (get_job_status [] "ghost-job").error =
        some (no_such_job_message "ghost-job")
    ∧ (get_job_status [("j1", RqJobState.failed "boom")] "j1").status = "failed"
    ∧ (get_job_status [] "ghost-job").status =
        (get_job_status [("j1", RqJobState.failed "boom")] "j1").status := by
  refine ⟨rfl, rfl, rfl, rfl⟩

/-- C3 as amended: for a job id unknown to the backing store,
`get_job_status` catches the `NoSuchJobError` raised by `Job.fetch` and
returns the dict `{status: "failed", error: str(e)}`; this outcome is
distinct from the `"running"` status of a job that is still in flight,
but it carries the same `"failed"` status as a job that ran and failed. -/
theorem C3_unknown_id_yields_failed_response :
    (∀ (store : List (String × RqJobState)) (job_id : String),
      store.lookup job_id = Option.none →
        get_job_status store job_id =
          { job_id := job_id, status := "failed", result := Option.none,
            error := some (no_such_job_message job_id) })
    ∧ (∀ (store : List (String × RqJobState)) (job_id : String),
      store.lookup job_id = some RqJobState.other →
        (get_job_status store job_id).status = "running")
    ∧ ("failed" : String) ≠ "running" := by
  refine ⟨?_, ?_, by decide⟩
  · intro store job_id h
    unfold get_job_status rq_job_fetch
    rw [h]
  · intro store job_id h
    unfold get_job_status rq_job_fetch
    rw [h]

/-- Witness for C3 at a concrete empty store and a concrete store holding
one queued job. -/
theorem C3_witness :
    get_job_status [] "ghost" =
      { job_id := "ghost", status := "failed", result := Option.none,
        error := some (no_such_job_message "ghost") }
    ∧ (get_job_status [("j2", RqJobState.other)] "j2").status = "running" :=
  ⟨C3_unknown_id_yields_failed_response.1 [] "ghost" rfl,
   C3_unknown_id_yields_failed_response.2.1 [("j2", RqJobState.other)] "j2" rfl⟩

/-- C4, counterexample to the claim as stated: `task_timeout = -5` is not
a positive integer, yet the process-wide default (30 s) is not
substituted - the guard `not task_timeout or not isinstance(task_timeout,
int)` accepts every nonzero `int` - and the job is persisted with
timeout `-5`, not `min(default, 1800) = 30`. -/
theorem C4_counterexample_negative_timeout_kept :
    (enqueue_task "process_chunk" Option.none "qa-chatbot"
        (.int (-5)) true).timeout = -5
    ∧ min REDIS_TIMEOUT 1800 = 30
    ∧ ((-5 : Int) ≠ 30) := by
  refine ⟨rfl, rfl, by decide⟩

/-- C4 as amended: the default timeout is substituted exactly when the
argument is absent, zero, or not an `int`; every nonzero integer
(negative ones included) is kept; in all cases the persisted timeout is
`min(kept_or_default, 1800)`. -/
theorem C4_timeout_default_and_cap :
    ∀ (func : String) (args : Option (List PyVal)) (qn : String) (ar : Bool),
      ((enqueue_task func args qn .none ar).timeout = min REDIS_TIMEOUT 1800)
      ∧ (∀ t, (enqueue_task func args qn (.other t) ar).timeout =
          min REDIS_TIMEOUT 1800)
      ∧ ((enqueue_task func args qn (.int 0) ar).timeout = min REDIS_TIMEOUT 1800)
      ∧ (∀ n : Int, n ≠ 0 →
          (enqueue_task func args qn (.int n) ar).timeout = min n 1800) := by
  intro func args qn ar
  refine ⟨rfl, ?_, rfl, ?_⟩
  · intro t
    cases t <;> rfl
  · intro n hn
    unfold enqueue_task
    rw [if_neg (by simp [TimeoutArg.truthy, TimeoutArg.isInt, hn])]
    rfl

/-- Witness for C4 at a concrete negative requested timeout. -/
theorem C4_witness :
    (enqueue_task "fn" Option.none "qa-chatbot" (.int (-7)) true).timeout =
      min (-7 : Int) 1800 :=
  (C4_timeout_default_and_cap "fn" Option.none "qa-chatbot" true).2.2.2
    (-7) (by decide)

/-- C5: the retirement policy does not hold of the code. The restart
bookkeeping is keyed by `id(worker)`, the object identity of the dead
`Process`; every restarted worker is a fresh object with a fresh
identity, so its looked-up restart count is always 0. After six
consecutive crashes of the manager's single worker slot the supervisor
has restarted it six times (a live worker remains), no slot was ever
retired, every recorded restart count is stuck at 1, and the sixth
restart was scheduled `base_restart_delay * 2 ^ 0 = 5` seconds after the
crash - not `5 * 2 ^ 5` and not retirement. -/
theorem C5_slot_never_retired :
    ((crashCycle^[6]) managerInit).workers.length = 1
    ∧ ((crashCycle^[6]) managerInit).retired = 0
    ∧ ((crashCycle^[6]) managerInit).restart_counts =
        [(0, 1), (1, 1), (2, 1), (3, 1), (4, 1), (5, 1)]
    ∧ (managerLoopIter (crashAll ((crashCycle^[5]) managerInit))).restart_delays =
        [(5, ((crashCycle^[5]) managerInit).now + base_restart_delay * 2 ^ 0)] := by
  refine ⟨by decide, by decide, by decide, by decide⟩

/-- When the watcher's polling loop breaks at iteration `k` (starting the
scan at iteration `start`), the exit condition holds at `k` and fails at
every polled iteration before `k`. -/
lemma watcherBreakIndex_spec (total : Nat) (obs : Nat → Option Nat) :
    ∀ fuel start k, watcherBreakIndex total obs fuel start = some k →
      start ≤ k ∧ watcherExitCond total (obs k) = true ∧
        ∀ j, start ≤ j → j < k → watcherExitCond total (obs j) = false := by
  intro fuel
  induction fuel with
  | zero =>
    intro start k h
    exact absurd h (by simp [watcherBreakIndex])
  | succ fuel ih =>
    intro start k h
    unfold watcherBreakIndex at h
    cases hc : watcherExitCond total (obs start) with
    | true =>
      rw [hc, if_pos rfl] at h
      obtain rfl : start = k := by injection h
      exact ⟨Nat.le_refl _, hc, fun j hj hjk => absurd (Nat.lt_of_le_of_lt hj hjk)
        (Nat.lt_irrefl _)⟩
    | false =>
      rw [hc] at h
      simp only [Bool.false_eq_true, if_false] at h
      obtain ⟨h1, h2, h3⟩ := ih (start + 1) k h
      refine ⟨Nat.le_trans (Nat.le_succ start) h1, h2, ?_⟩
      intro j hj hjk
      rcases Nat.eq_or_lt_of_le hj with rfl | hlt
      · exact hc
      · exact h3 j hlt hjk

/-- The exit condition holding means the counter key was present with a
value at least `total`. -/
lemma watcherExitCond_true_iff (total : Nat) (o : Option Nat) :
    watcherExitCond total o = true ↔ ∃ v, o = some v ∧ total ≤ v := by
  cases o with
  | none => simp [watcherExitCond]
  | some v => simp [watcherExitCond]

/-- C6: when a run of the watcher deletes the document's counter, it does
so after an iteration that observed a counter value `≥ total_chunks`,
never after an earlier iteration (every earlier poll saw the key absent
or its value below `total_chunks`); the deletion point of the run is
unique, and the increment side (`process_chunk`) performs no delete at
all - the counter is deleted only by the watcher, once. -/
theorem C6_counter_deleted_only_on_completion :
    ∀ (total : Nat) (obs : Nat → Option Nat) (fuel k : Nat),
      check_document_completion total obs fuel = .deleteCounter k →
        (∃ v, obs k = some v ∧ total ≤ v)
        ∧ (∀ j, j < k → watcherExitCond total (obs j) = false)
        ∧ (∀ k2, check_document_completion total obs fuel = .deleteCounter k2 →
            k2 = k)
        ∧ (∀ d, (process_chunk_redis_ops d).all (fun op => !op.isDelete) = true) := by
  intro total obs fuel k h
  unfold check_document_completion at h
  cases hb : watcherBreakIndex total obs fuel 0 with
  | none => rw [hb] at h; cases h
  | some k1 =>
    rw [hb] at h
    obtain rfl : k1 = k := by injection h
    obtain ⟨-, h2, h3⟩ := watcherBreakIndex_spec total obs fuel 0 k1 hb
    refine ⟨(watcherExitCond_true_iff total (obs k1)).mp h2, ?_, ?_, ?_⟩
    · intro j hj
      exact h3 j (Nat.zero_le j) hj
    · intro k2 h4
      unfold check_document_completion at h4
      rw [hb] at h4
      injection h4 with h5
      exact h5.symm
    · intro d
      rfl

/-- The observation stream of a document whose chunk jobs complete at
iteration 2: the counter key is absent for two polls, then holds 3. -/
def obsC6 : Nat → Option Nat :=
  fun k => if k < 2 then Option.none else some 3

/-- Witness for C6 at the concrete stream `obsC6` with `total_chunks = 3`:
the watcher deletes after iteration 2, having observed value 3. -/
theorem C6_witness :
    (∃ v, obsC6 2 = some v ∧ 3 ≤ v)
    ∧ (∀ j, j < 2 → watcherExitCond 3 (obsC6 j) = false)
    ∧ (∀ k2, check_document_completion 3 obsC6 5 = .deleteCounter k2 → k2 = 2)
    ∧ (∀ d, (process_chunk_redis_ops d).all (fun op => !op.isDelete) = true) :=
  C6_counter_deleted_only_on_completion 3 obsC6 5 2 (by decide)

/-- The polling loop with an observation stream that never produces the
counter key never breaks, whatever the iteration budget. -/
lemma watcherBreakIndex_none_forever (total : Nat) :
    ∀ fuel start,
      watcherBreakIndex total (fun _ => Option.none) fuel start = Option.none := by
  intro fuel
  induction fuel with
  | zero => intro start; rfl
  | succ fuel ih =>
    intro start
    unfold watcherBreakIndex
    simp only [watcherExitCond, Bool.false_eq_true, if_false]
    exact ih (start + 1)

/-- C10: the watcher exits its loop only on observing a present counter
value `≥ total_chunks`; a document whose text yields zero chunks
(`chunk_text` of the empty text is the empty chunk list, so the watcher
is enqueued with `total_chunks = 0` and no chunk job ever creates the
counter key) leaves the watcher polling forever - it never deletes the
counter and never reports the document processed, for any number of
iterations. -/
theorem C10_zero_chunk_watcher_never_exits :
    chunk_text [] CHUNK_SIZE CHUNK_OVERLAP = some []
    ∧ (∀ fuel,
        check_document_completion 0 (fun _ => Option.none) fuel = .stillPolling)
    ∧ (∀ (total : Nat) (obs : Nat → Option Nat) (fuel k : Nat),
        check_document_completion total obs fuel = .deleteCounter k →
          ∃ v, obs k = some v ∧ total ≤ v) := by
  refine ⟨rfl, ?_, ?_⟩
  · intro fuel
    unfold check_document_completion
    rw [watcherBreakIndex_none_forever 0 fuel 0]
  · intro total obs fuel k h
    unfold check_document_completion at h
    cases hb : watcherBreakIndex total obs fuel 0 with
    | none => rw [hb] at h; cases h
    | some k1 =>
      rw [hb] at h
      obtain rfl : k1 = k := by injection h
      obtain ⟨-, h2, -⟩ := watcherBreakIndex_spec total obs fuel 0 k1 hb
      exact (watcherExitCond_true_iff total (obs k1)).mp h2

/-- A stream observing the counter at 5 from the first poll. -/
def obsC10 : Nat → Option Nat :=
  fun _ => some 5

/-- Witness for C10's exit characterization at a concrete stream: a
deletion after iteration 0 implies an observed value `≥ 2` there. -/
theorem C10_witness :
    check_document_completion 0 (fun _ => Option.none) 100 = .stillPolling
    ∧ ∃ v, obsC10 0 = some v ∧ 2 ≤ v :=
  ⟨C10_zero_chunk_watcher_never_exits.2.1 100,
   C10_zero_chunk_watcher_never_exits.2.2 2 obsC10 3 0 (by decide)⟩

/-- With `overlap < chunk_size`, the chunking loop started at `start`
finishes within any fuel bound of at least `text.length - start`
iterations, and window `i` of its output is
`text[start + i*(chunk_size-overlap) : start + i*(chunk_size-overlap) + chunk_size]`. -/
lemma chunkLoop_spec (text : List Char) (cs ov : Nat) (hov : ov < cs) :
    ∀ fuel start, text.length ≤ start + fuel →
      ∃ l, chunkLoop text cs ov start fuel = some l ∧
        ∀ i, i < l.length →
          l.getD i [] = (text.drop (start + i * (cs - ov))).take cs := by
  intro fuel
  induction fuel with
  | zero =>
    intro start hs
    refine ⟨[], ?_, ?_⟩
    · unfold chunkLoop
      rw [if_neg (by omega)]
    · intro i hi
      exact absurd hi (by simp)
  | succ fuel ih =>
    intro start hs
    by_cases hstart : start < text.length
    · obtain ⟨l, hl, hprop⟩ := ih (start + cs - ov) (by omega)
      refine ⟨((text.drop start).take cs) :: l, ?_, ?_⟩
      · unfold chunkLoop
        rw [if_pos hstart, hl]
      · intro i hi
        cases i with
        | zero => simp
        | succ i =>
          have harith : start + cs - ov + i * (cs - ov) =
              start + (i + 1) * (cs - ov) := by
            have h1 : start + cs - ov = start + (cs - ov) := by omega
            rw [h1, add_one_mul]
            ring
          rw [List.getD_cons_succ, ← harith]
          exact hprop i (by simpa using hi)
    · refine ⟨[], ?_, ?_⟩
      · unfold chunkLoop
        rw [if_neg hstart]
      · intro i hi
        exact absurd hi (by simp)

/-- C7 as amended: for every text and every configuration with
`overlap < chunk_size`, `chunk_text` terminates and returns the list of
windows in which window `i` is `text[i*(chunk_size-overlap) :
i*(chunk_size-overlap) + chunk_size]` - so it starts at character
`i * (chunk_size - overlap)` and has length
`min(chunk_size, len(text) - i*(chunk_size-overlap))`, which is at most
`chunk_size` but can fall short of it on several trailing windows, not
only the last one. -/
theorem C7_chunk_windows :
    ∀ (text : List Char) (chunk_size overlap : Nat), overlap < chunk_size →
      ∃ chunks, chunk_text text chunk_size overlap = some chunks
        ∧ (∀ i, i < chunks.length →
            chunks.getD i [] =
              (text.drop (i * (chunk_size - overlap))).take chunk_size)
        ∧ (∀ i, i < chunks.length → (chunks.getD i []).length ≤ chunk_size) := by
  intro text cs ov hov
  obtain ⟨l, hl, hprop⟩ := chunkLoop_spec text cs ov hov text.length 0 (by omega)
  refine ⟨l, hl, ?_, ?_⟩
  · intro i hi
    simpa using hprop i hi
  · intro i hi
    have := hprop i hi
    rw [this, List.length_take]
    exact min_le_left _ _

/-- The four-character text of the C7 counterexample. -/
def c7Text : List Char := ['a', 'b', 'c', 'd']

/-- C7, counterexample to the claim as stated: with `text = "abcd"`,
`chunk_size = 3`, `overlap = 2` (so `0 ≤ overlap < chunk_size`),
`chunk_text` returns the four windows `"abc", "bcd", "cd", "d"`; window 2
has length 2 ≠ chunk_size although it is not the last window - the
"every window but possibly the last has length chunk_size" clause fails. -/
theorem C7_counterexample_short_middle_window :
    chunk_text c7Text 3 2 =
      some [['a', 'b', 'c'], ['b', 'c', 'd'], ['c', 'd'], ['d']]
    ∧ (((chunk_text c7Text 3 2).getD []).getD 2 []).length = 2
    ∧ ((chunk_text c7Text 3 2).getD []).length = 4 := by
  refine ⟨by decide, by decide, by decide⟩

/-- Witness for C7 at the concrete text `"abcd"` with `chunk_size = 3`,
`overlap = 2`. -/
theorem C7_witness :
    ∃ chunks, chunk_text c7Text 3 2 = some chunks
      ∧ (∀ i, i < chunks.length →
          chunks.getD i [] = (c7Text.drop (i * (3 - 2))).take 3)
      ∧ (∀ i, i < chunks.length → (chunks.getD i []).length ≤ 3) :=
  C7_chunk_windows c7Text 3 2 (by decide)

/-- C8: `process_file` validates before producing any effect. For every
upload whose `content_type` is not `application/pdf` or whose size
exceeds `MAX_FILE_SIZE_BYTES`, it raises a `ValueError` at once: the
state it returns is exactly the state it was given - no document row
inserted, no chunk or watcher job enqueued - whatever the outcomes of
the collaborator calls would have been. -/
theorem C8_rejection_leaves_state_unchanged :
    ∀ (extract insert : Except PyError String) (st : IngestState)
      (data : UploadData) (user_id : String) (title : Option String),
      (data.content_type ≠ "application/pdf" ∨ MAX_FILE_SIZE_BYTES < data.size) →
        (process_file extract insert st data user_id title).1 = st
        ∧ ∃ msg, (process_file extract insert st data user_id title).2 =
            .error (.valueError msg) := by
  intro extract insert st data user_id title h
  unfold process_file
  by_cases hct : data.content_type ≠ "application/pdf"
  · rw [if_pos hct]
    exact ⟨rfl, _, rfl⟩
  · rcases h with h | h
    · exact absurd h hct
    · rw [if_neg hct, if_pos h]
      exact ⟨rfl, _, rfl⟩

/-- A non-PDF upload used as the C8 witness input. -/
def textUpload : UploadData :=
  { filename := "notes.txt", size := 10, content := "hello",
    content_type := "text/plain" }

/-- An initial ingestion state with one unrelated queued job. -/
def stWitness : IngestState :=
  { documents := []
    queue := [{ func := "process_chunk", args := [], queue_name := "qa-chatbot" }] }

/-- Witness for C8 at a concrete non-PDF upload: the state is returned
untouched and a `ValueError` is raised. -/
theorem C8_witness :
    (process_file (.ok "text") (.ok "doc-9") stWitness textUpload
        "user-1" Option.none).1 = stWitness
    ∧ ∃ msg, (process_file (.ok "text") (.ok "doc-9") stWitness textUpload
        "user-1" Option.none).2 = .error (.valueError msg) :=
  C8_rejection_leaves_state_unchanged (.ok "text") (.ok "doc-9") stWitness
    textUpload "user-1" Option.none (Or.inl (by decide))
